import Mathlib

/-! # Interview session controller (src/pages/Interviewee.js)

A shallow embedding of the session logic of the `Interviewee` component:
the candidate records, the per-question countdown, pause/resume, opening a
candidate, submitting an answer and the resume scan at mount; of the two
functions of `src/utils/storage.js`; and of the filter, search and sort of the
dashboard (`src/pages/Interviewer.js`).

Modelling conventions.

* React state variables become fields of `State`; a handler is a function
  `State → State`.  Functional updates (`setCandidates(prev => ...)`,
  `setRemaining(prev => ...)`) read the current state; every other value a
  handler reads comes from the closure of the render that created the handler
  and is passed explicitly as an `Env`.
* `handleSubmit`, `openCandidate`, `pauseActive` and `resumeActive` list every
  value they read in their dependency array (or are re-created on each render),
  so the UI always calls them with the closure of the current render
  (`s.toEnv`).  `startTimer` is memoised with
  `[questions, currentIndex, active, updateCandidate]` only: its closure is the
  render in which one of these last changed (`State.startTimerEnv`), and the
  interval callback it creates keeps that closure (`State.timerRef`).
* External calls (question generation, grading, final summary) are inputs of
  the handler: `Except String payload`, an error standing for a rejected
  `fetch` or a body that is not JSON.
* `Date.now()` is an explicit argument `now`.
* The platform objects `JSON` and `localStorage` and the text functions of the
  dashboard are parameters (`JsonApi`, `Storage`, `TextApi`);
  `Array.prototype.sort` is a stable sort, computed by insertion.
* JavaScript numbers are `Int` (`remaining`, scores) or `Nat` (indices,
  lengths); `difficulty` ranges over the three keys of `difficultySeconds`.
-/

namespace Interview

/-! ## Data model -/

/-- The three keys of `difficultySeconds`. -/
inductive Difficulty where
  | easy
  | medium
  | hard
deriving DecidableEq, Repr

/-- Time budget: `const difficultySeconds = { easy: 20, medium: 60, hard: 120 }`. -/
def difficultySeconds : Difficulty → Int
  | .easy => 20
  | .medium => 60
  | .hard => 120

/-- A generated question `{id, text, difficulty}`. -/
structure Question where
  id : String
  text : String
  difficulty : Difficulty
deriving DecidableEq, Repr

/-- The answer object built by `handleSubmit`. -/
structure Answer where
  questionId : String
  questionText : String
  difficulty : Difficulty
  responseText : String
  timeTakenSeconds : Int
  autoSubmitted : Bool
  score : Option Int
  feedback : Option String
deriving DecidableEq, Repr

/-- The `timer` object of a candidate.  `pauseActive` and `resumeActive` spread
the previous timer (or the empty object) into it, so `questionIndex` and
`remaining` may be missing. -/
structure TimerSnap where
  questionIndex : Option Nat
  remaining : Option Int
  lastUpdated : Nat
deriving DecidableEq, Repr

/-- A candidate record, with the fields of `newCand` in `handleUploadFile`. -/
structure Candidate where
  id : String
  name : String
  email : String
  phone : String
  resumeText : String
  createdAt : String
  currentIndex : Nat
  answers : List Answer
  finalScore : Option Int
  summary : Option String
  timer : Option TimerSnap
  paused : Bool
  questionsLength : Nat
  questions : List Question
deriving DecidableEq, Repr

/-- An object updater of `updateCandidate`: the fields that are present are
merged over the record (`{ ...c, ...updater }`). -/
structure CandidatePatch where
  id : Option String
  name : Option String
  email : Option String
  phone : Option String
  resumeText : Option String
  createdAt : Option String
  currentIndex : Option Nat
  answers : Option (List Answer)
  finalScore : Option (Option Int)
  summary : Option (Option String)
  timer : Option (Option TimerSnap)
  paused : Option Bool
  questionsLength : Option Nat
  questions : Option (List Question)

/-- The patch with no field. -/
def CandidatePatch.empty : CandidatePatch :=
  { id := none, name := none, email := none, phone := none, resumeText := none,
    createdAt := none, currentIndex := none, answers := none, finalScore := none,
    summary := none, timer := none, paused := none, questionsLength := none,
    questions := none }

/-- The spread `{ ...c, ...updater }`. -/
def CandidatePatch.merge (p : CandidatePatch) (c : Candidate) : Candidate :=
  { id := p.id.getD c.id
    name := p.name.getD c.name
    email := p.email.getD c.email
    phone := p.phone.getD c.phone
    resumeText := p.resumeText.getD c.resumeText
    createdAt := p.createdAt.getD c.createdAt
    currentIndex := p.currentIndex.getD c.currentIndex
    answers := p.answers.getD c.answers
    finalScore := p.finalScore.getD c.finalScore
    summary := p.summary.getD c.summary
    timer := p.timer.getD c.timer
    paused := p.paused.getD c.paused
    questionsLength := p.questionsLength.getD c.questionsLength
    questions := p.questions.getD c.questions }

/-- The second argument of `updateCandidate`: a function or an object. -/
inductive Updater where
  | fn (f : Candidate → Candidate)
  | obj (p : CandidatePatch)

/-- The branch `typeof updater === 'function' ? updater(c) : { ...c, ...updater }`. -/
def Updater.apply : Updater → Candidate → Candidate
  | .fn f, c => f c
  | .obj p, c => p.merge c

/-- The argument of `setCandidates` in `updateCandidate`:
`prev.map(c => c.id === id ? ... : c)`. -/
def updateCandidate (id : String) (updater : Updater) (prev : List Candidate) :
    List Candidate :=
  prev.map fun c => if c.id = id then updater.apply c else c

/-! ## Component state -/

/-- Kinds of `message.*` notifications. -/
inductive Level where
  | info
  | success
  | warning
  | error
deriving DecidableEq, Repr

/-- One `message.*` call. -/
structure Notice where
  level : Level
  text : String
deriving DecidableEq, Repr

/-- The values of one render that the handlers close over. -/
structure Env where
  candidates : List Candidate
  active : Option String
  questions : List Question
  currentIndex : Nat
  remaining : Int
  answer : String
deriving DecidableEq, Repr

/-- The component state: the `useState` variables of `Env`, the two busy
flags, the notifications shown so far, the interval held by `timerRef`
(identified with the closure of the `startTimer` call that created it) and the
closure of the memoised `startTimer`. -/
structure State extends Env where
  fetchingQuestions : Bool
  submitting : Bool
  notices : List Notice
  timerRef : Option Env
  startTimerEnv : Env
deriving DecidableEq, Repr

/-- The request outcome of `/api/generate-questions`: `data.questions`, absent
or a list. -/
abbrev GenResponse := Except String (Option (List Question))

/-- The body of `/api/grade-answer`. -/
structure Grade where
  score : Option Int
  feedback : Option String
deriving DecidableEq, Repr

/-- The body of `/api/final-summary`. -/
structure FinalData where
  finalScorePercent : Option Int
  summary : Option String
deriving DecidableEq, Repr

/-! ## JavaScript helpers -/

/-- The truth value of `!active` for `active` null or a string. -/
def falsy : Option String → Bool
  | none => true
  | some a => a == ""

/-- The characters removed by `String.prototype.trim`: WhiteSpace and
LineTerminator of ECMAScript. -/
def jsWhite (c : Char) : Bool :=
  let n := c.toNat
  n == 0x09 || n == 0x0A || n == 0x0B || n == 0x0C || n == 0x0D || n == 0x20 ||
  n == 0xA0 || n == 0x1680 || (0x2000 ≤ n && n ≤ 0x200A) || n == 0x2028 ||
  n == 0x2029 || n == 0x202F || n == 0x205F || n == 0x3000 || n == 0xFEFF

/-- The method `trim` on the list of characters. -/
def jsTrim (s : String) : String :=
  String.mk ((s.data.dropWhile jsWhite).reverse.dropWhile jsWhite).reverse

/-- The test `!answer.trim()`. -/
def blank (s : String) : Bool := jsTrim s == ""

/-- The text stored for an auto-submitted empty answer. -/
def autoSentinel : String := "[AUTO SUBMITTED]"

/-- The lookup `candidates.find(c => c.id === active)`; `active` null matches
no record. -/
def findActive (cs : List Candidate) (active : Option String) : Option Candidate :=
  cs.find? fun c => some c.id == active

/-- The assignment `a[a.length - 1] = { ...a[a.length - 1], score, feedback }` on a
copy of the answers; on the empty array it adds no element. -/
def setLastGrade (g : Grade) : List Answer → List Answer
  | [] => []
  | [a] => [{ a with score := g.score, feedback := g.feedback }]
  | a :: b :: rest => a :: setLastGrade g (b :: rest)

/-! ## Handlers -/

/-- A call of `message.*`. -/
def State.notify (s : State) (l : Level) (t : String) : State :=
  { s with notices := s.notices ++ [{ level := l, text := t }] }

/-- A call `updateCandidate(id, updater)`: a functional update of `candidates`.
An `id` that is null matches no record. -/
def State.update (s : State) (id : Option String) (u : Updater) : State :=
  match id with
  | none => s
  | some i => { s with candidates := updateCandidate i u s.candidates }

/-- The answer built in `handleSubmit` from the closure `e`. -/
def newAnswer (e : Env) (auto : Bool) (q : Question) : Answer :=
  { questionId := q.id
    questionText := q.text
    difficulty := q.difficulty
    responseText := if blank e.answer && auto then autoSentinel else e.answer
    timeTakenSeconds := difficultySeconds q.difficulty - e.remaining
    autoSubmitted := auto
    score := none
    feedback := none }

/-- The first update of `handleSubmit`: append the answer, advance
`currentIndex`, clear `timer`. -/
def appendAnswer (a : Answer) (c : Candidate) : Candidate :=
  { c with answers := c.answers ++ [a], currentIndex := c.currentIndex + 1, timer := none }

/-- The part of `handleSubmit` that runs before the first `await`: the guards,
`clearInterval`, the append, `setAnswer('')` and `setSubmitting(true)`.  The
boolean tells whether the call went on to the grading request. -/
def handleSubmitSync (e : Env) (auto : Bool) (s : State) : State × Bool :=
  if falsy e.active then (s, false) else
  match findActive e.candidates e.active with
  | none => (s, false)
  | some _ =>
    let s1 := { s with timerRef := none }
    match e.questions[e.currentIndex]? with
    | none => (s1, false)
    | some q =>
      let s2 := s1.update e.active (.fn (appendAnswer (newAnswer e auto q)))
      ({ s2 with answer := "", submitting := true }, true)

/-- The rest of `handleSubmit`, from the grading response on. -/
def handleSubmitAsync (e : Env) (grade : Except String Grade)
    (final : Except String FinalData) (s : State) : State :=
  let s1 :=
    match grade with
    | .ok g => s.update e.active (.fn fun c => { c with answers := setLastGrade g c.answers })
    | .error _ => s.notify .warning "Error grading answer."
  let nextIndex := e.currentIndex + 1
  if h : nextIndex < e.questions.length then
    { s1 with submitting := false, currentIndex := nextIndex,
              remaining := difficultySeconds (e.questions[nextIndex]).difficulty }
  else
    let s2 :=
      match final with
      | .ok d =>
        (s1.update e.active (.obj { CandidatePatch.empty with
            finalScore := some d.finalScorePercent
            summary := some d.summary
            currentIndex := some e.questions.length })).notify .success "Interview completed!"
      | .error _ => s1.notify .error "Interview finished but summary failed."
    { s2 with submitting := false }

/-- The handler `handleSubmit(auto)` with the two responses it awaits. -/
def handleSubmit (e : Env) (auto : Bool) (grade : Except String Grade)
    (final : Except String FinalData) (s : State) : State :=
  match handleSubmitSync e auto s with
  | (s1, true) => handleSubmitAsync e grade final s1
  | (s1, false) => s1

/-- The handler `startTimer()` with closure `e`: stop the previous interval,
set `remaining` from the record's persisted timer or else from the budget, and
install a new interval. -/
def startTimer (e : Env) (s : State) : State :=
  let s1 := { s with timerRef := none }
  match e.questions[e.currentIndex]? with
  | none => s1
  | some q =>
    if falsy e.active then s1 else
    let initialRemaining :=
      (((findActive e.candidates e.active).bind (·.timer)).bind (·.remaining)).getD
        (difficultySeconds q.difficulty)
    { s1 with remaining := initialRemaining, timerRef := some e }

/-- One firing of the interval callback created by `startTimer`.  Without an
interval nothing fires.  The updater of `setRemaining` persists the timer,
and at `next <= 0` clears the interval, calls `handleSubmit(true)` of the
closure and returns 0; the awaited part of `handleSubmit` runs afterwards. -/
def tick (now : Nat) (grade : Except String Grade) (final : Except String FinalData)
    (s : State) : State :=
  match s.timerRef with
  | none => s
  | some e =>
    let next := s.remaining - 1
    let s1 := s.update e.active (.fn fun c =>
      { c with timer := some { questionIndex := some e.currentIndex
                               remaining := some (max 0 next)
                               lastUpdated := now } })
    if next ≤ 0 then
      match handleSubmitSync e true { s1 with timerRef := none } with
      | (s2, true) => handleSubmitAsync e grade final { s2 with remaining := 0 }
      | (s2, false) => { s2 with remaining := 0 }
    else { s1 with remaining := next }

/-- The handler `pauseActive()`. -/
def pauseActive (e : Env) (now : Nat) (s : State) : State :=
  if falsy e.active then s else
  let s1 := { s with timerRef := none }
  let s2 := s1.update e.active (.fn fun c =>
    { c with paused := true
             timer := some { questionIndex := c.timer.bind (·.questionIndex)
                             remaining := some e.remaining
                             lastUpdated := now } })
  s2.notify .info "Interview paused."

/-- The handler `resumeActive()`; `st` is the closure of the memoised
`startTimer` it calls. -/
def resumeActive (e : Env) (st : Env) (now : Nat) (s : State) : State :=
  if falsy e.active then s else
  let s1 := s.update e.active (.fn fun c =>
    { c with paused := false
             timer := some { questionIndex := c.timer.bind (·.questionIndex)
                             remaining := c.timer.bind (·.remaining)
                             lastUpdated := now } })
  (startTimer st s1).notify .success "Interview resumed!"

/-- The value `cand.currentIndex || cand.answers.length || 0`. -/
def resumeIndex (cand : Candidate) : Nat :=
  if cand.currentIndex ≠ 0 then cand.currentIndex
  else if cand.answers.length ≠ 0 then cand.answers.length else 0

/-- The `catch` of `openCandidate`: report and clear the busy flag. -/
def openFailed (s : State) (msg : String) : State :=
  { s.notify .error (if msg = "" then "Failed to fetch questions." else msg) with
    fetchingQuestions := false }

/-- The part of `openCandidate` after the questions are known (`qs` is non-empty
there, so `qs.length - 1` does not go below 0). -/
def openWith (candidateId : String) (resume : Bool) (cand : Candidate)
    (qs : List Question) (s : State) : State :=
  let idx := if resume then resumeIndex cand else 0
  let rem :=
    match qs[idx]? with
    | some nextQ => difficultySeconds nextQ.difficulty
    | none => 0
  { s with questions := qs, currentIndex := min idx (qs.length - 1), remaining := rem,
           active := some candidateId, fetchingQuestions := false }

/-- The handler `openCandidate(candidateId, resume, candidatesList)` with the
response of the generation request it may await. -/
def openCandidate (e : Env) (candidateId : String) (resume : Bool)
    (candidatesList : Option (List Candidate)) (resp : GenResponse) (s : State) : State :=
  let currentCandidates := candidatesList.getD e.candidates
  match currentCandidates.find? (fun c => c.id == candidateId) with
  | none => s
  | some cand =>
    if cand.questions.length ≠ 0 then openWith candidateId resume cand cand.questions s
    else
      match resp with
      | .error msg => openFailed s msg
      | .ok none => openFailed s "Backend must return exactly 6 questions."
      | .ok (some qs) =>
        if qs.length ≠ 6 then openFailed s "Backend must return exactly 6 questions."
        else
          openWith candidateId resume cand qs
            (s.update (some candidateId) (.obj { CandidatePatch.empty with
              questions := some qs, questionsLength := some qs.length }))

/-! ## Renders, events and runs -/

/-- The effect of a render on the memoised `startTimer`: `useCallback` keeps the
previous function unless `questions`, `currentIndex` or `active` changed
(`updateCandidate` never changes), and otherwise takes the function of this
render. -/
def render (s : State) : State :=
  if s.questions = s.startTimerEnv.questions ∧ s.currentIndex = s.startTimerEnv.currentIndex ∧
      s.active = s.startTimerEnv.active then s
  else { s with startTimerEnv := s.toEnv }

/-- The state of the first render: `candidates` from `loadCandidates()`, the
other variables at their initial values. -/
def mount (cands : List Candidate) : State :=
  let e : Env := { candidates := cands, active := none, questions := [], currentIndex := 0,
                   remaining := 0, answer := "" }
  { toEnv := e, fetchingQuestions := false, submitting := false, notices := [],
    timerRef := none, startTimerEnv := e }

/-- What can happen to the mounted component. -/
inductive Event where
  | openCand (id : String) (resume : Bool) (resp : GenResponse)
  | typeAnswer (text : String)
  | pause (now : Nat)
  | resume (now : Nat)
  | submit (auto : Bool) (grade : Except String Grade) (final : Except String FinalData)
  | tick (now : Nat) (grade : Except String Grade) (final : Except String FinalData)

/-- One event followed by the render it causes.  The handlers called from the
UI use the closure of the current render, `resumeActive` calls the memoised
`startTimer`, and a tick runs the callback of the installed interval. -/
def step (s : State) : Event → State
  | .openCand id resume resp => render (openCandidate s.toEnv id resume none resp s)
  | .typeAnswer text => render { s with answer := text }
  | .pause now => render (pauseActive s.toEnv now s)
  | .resume now => render (resumeActive s.toEnv s.startTimerEnv now s)
  | .submit auto grade final => render (handleSubmit s.toEnv auto grade final s)
  | .tick now grade final => render (tick now grade final s)

/-- A run of events from a state. -/
def run (s : State) (evs : List Event) : State := evs.foldl step s

/-- The record `activeCandidate` of the render. -/
def activeCandidate (s : State) : Option Candidate :=
  if falsy s.active then none else findActive s.candidates s.active

/-- The question card is rendered (the profile dialog being closed): a candidate
is active, its `finalScore` is null, and `questions[currentIndex]` exists. -/
def cardShown (s : State) : Bool :=
  !falsy s.active && ((activeCandidate s).bind (·.finalScore)).isNone &&
    (s.questions[s.currentIndex]?).isSome

/-- The value `activeCandidate?.paused` as a condition. -/
def pausedNow (s : State) : Bool :=
  match activeCandidate s with
  | some c => c.paused
  | none => false

/-- The event can be produced through the rendered page: the `disabled`
attributes of the Pause, Resume and Submit buttons and of the text area, the
Resume/Open button of a listed candidate (which passes `resume = true`), and a
tick only while an interval is installed. -/
def enabled (s : State) : Event → Bool
  | .openCand id resume _ => resume && s.candidates.any (fun c => c.id == id)
  | .typeAnswer _ => cardShown s && !(decide (s.remaining ≤ 0) || pausedNow s || s.submitting)
  | .pause _ => cardShown s && !(pausedNow s || s.submitting)
  | .resume _ => cardShown s && !(!pausedNow s || s.submitting)
  | .submit auto _ _ =>
    !auto && cardShown s && !(blank s.answer || decide (s.remaining ≤ 0) || s.submitting)
  | .tick _ _ _ => s.timerRef.isSome

/-- A run in which every event is enabled when it happens; `none` otherwise. -/
def runUI (s : State) : List Event → Option State
  | [] => some s
  | ev :: evs => if enabled s ev then runUI (step s ev) evs else none

/-! ## The resume scan at mount (src/pages/Interviewee.js) -/

/-- The truth value of `!c.finalScore` for a score that is null or a number: it
holds for null and for 0. -/
def falsyScore : Option Int → Bool
  | none => true
  | some n => n == 0

/-- The lookup of the mount effect:
`candidates.find(c => c.answers.length < (c.questionsLength || 0) && !c.finalScore)`. -/
def unfinished (candidates : List Candidate) : Option Candidate :=
  candidates.find? fun c =>
    decide (c.answers.length < c.questionsLength) && falsyScore c.finalScore

/-- The mount effect "Resume unfinished interview": it returns at once when a
candidate is active, and otherwise offers the record found in a confirmation
dialog (whose Resume button calls `handleOpenCandidate(unfinished.id, true)`).
The result is the state after the effect and the record offered. -/
def resumeEffect (s : State) : State × Option Candidate :=
  if !falsy s.active then (s, none) else (s, unfinished s.candidates)

/-- The scan as the specification words it: the first candidate with
`answers.length < questionsLength` and `finalScore == null`. -/
def unfinishedSpec (candidates : List Candidate) : Option Candidate :=
  candidates.find? fun c =>
    decide (c.answers.length < c.questionsLength) && c.finalScore.isNone

/-! ## Storage (src/utils/storage.js) -/

/-- The object `JSON` of the platform on candidate collections: `stringify`
gives the text of a collection, `parse` gives the collection a text denotes, or
nothing when it throws. -/
structure JsonApi where
  stringify : List Candidate → String
  parse : String → Option (List Candidate)

/-- The content of `localStorage`: `getItem(key)`, null for a key never set. -/
abbrev Storage := String → Option String

/-- The call `localStorage.setItem(key, value)`. -/
def Storage.setItem (st : Storage) (key value : String) : Storage :=
  fun k => if k = key then some value else st k

/-- The function `loadCandidates()`:
`try { return JSON.parse(localStorage.getItem('candidates') || '[]'); } catch(e){ return []; }`. -/
def loadCandidates (J : JsonApi) (st : Storage) : List Candidate :=
  let text :=
    match st "candidates" with
    | none => "[]"
    | some t => if t = "" then "[]" else t
  match J.parse text with
  | some cands => cands
  | none => []

/-- The function `saveCandidates(cands)`:
`localStorage.setItem('candidates', JSON.stringify(cands || []))`; `cands` null
stands for a missing argument. -/
def saveCandidates (J : JsonApi) (cands : Option (List Candidate)) (st : Storage) : Storage :=
  st.setItem "candidates" (J.stringify (cands.getD []))

/-! ## Dashboard (src/pages/Interviewer.js) -/

/-- The values of the status `<select>`. -/
inductive StatusFilter where
  | all
  | completed
  | inProgress
deriving DecidableEq, Repr

/-- The values of the sort `<select>`. -/
inductive SortKey where
  | finalScore
  | name
  | createdAt
deriving DecidableEq, Repr

/-- The platform functions on text that the dashboard calls: `toLowerCase`,
`localeCompare`, and the time value of `new Date(text)` (nothing for an invalid
date). -/
structure TextApi where
  toLowerCase : String → String
  localeCompare : String → String → Int
  dateValue : String → Option Int

/-- One list of characters starts with another. -/
def startsWith : List Char → List Char → Bool
  | _, [] => true
  | [], _ :: _ => false
  | c :: cs, d :: ds => c == d && startsWith cs ds

/-- The method `includes`: the needle occurs at some position of the text. -/
def jsIncludes (text needle : String) : Bool :=
  text.data.tails.any fun t => startsWith t needle.data

/-- The value `c.finalScore || 0`. -/
def scoreOrZero (c : Candidate) : Int := c.finalScore.getD 0

/-- The comparator passed to `sort`; a difference of two dates of which one is
invalid is NaN, which `sort` takes as 0. -/
def compareBy (T : TextApi) : SortKey → Candidate → Candidate → Int
  | .finalScore, a, b => scoreOrZero b - scoreOrZero a
  | .name, a, b => T.localeCompare a.name b.name
  | .createdAt, a, b =>
    match T.dateValue b.createdAt, T.dateValue a.createdAt with
    | some x, some y => x - y
    | _, _ => 0

/-- The method `Array.prototype.sort(cmp)` on a copy: a stable sort, in which an
element stays before a later one unless `cmp` puts it after (result greater
than 0).  It is computed by insertion. -/
def jsSort {α : Type} (cmp : α → α → Int) (l : List α) : List α :=
  l.insertionSort fun a b => cmp a b ≤ 0

/-- The Filter and Search steps of the `useMemo` of the dashboard. -/
def visible (T : TextApi) (filter : StatusFilter) (search : String)
    (stored : List Candidate) : List Candidate :=
  let cands :=
    match filter with
    | .completed => stored.filter fun c => c.finalScore.isSome
    | .inProgress => stored.filter fun c => c.finalScore.isNone
    | .all => stored
  if !blank search then
    let s := T.toLowerCase search
    cands.filter fun c =>
      jsIncludes (T.toLowerCase c.name) s || jsIncludes (T.toLowerCase c.email) s
  else cands

/-- The `useMemo` of the dashboard on the loaded collection: filter, search,
then `cands.slice().sort(...)`. -/
def dashboard (T : TextApi) (filter : StatusFilter) (search : String) (sortKey : SortKey)
    (stored : List Candidate) : List Candidate :=
  jsSort (compareBy T sortKey) (visible T filter search stored)

/-- The list the dashboard shows for a given content of the storage:
`let cands = loadCandidates()` and the steps above.  The storage is only
read. -/
def dashboardCandidates (J : JsonApi) (T : TextApi) (st : Storage) (filter : StatusFilter)
    (search : String) (sortKey : SortKey) : List Candidate :=
  dashboard T filter search sortKey (loadCandidates J st)

/-! ## Sample data and runs -/

/-- An easy question. -/
def firstQuestion : Question := { id := "q1", text := "t1", difficulty := .easy }

/-- Six questions, as the generation request returns them. -/
def sampleQuestions : List Question :=
  [ firstQuestion,
    { id := "q2", text := "t2", difficulty := .easy },
    { id := "q3", text := "t3", difficulty := .medium },
    { id := "q4", text := "t4", difficulty := .medium },
    { id := "q5", text := "t5", difficulty := .hard },
    { id := "q6", text := "t6", difficulty := .hard } ]

/-- A stored candidate that has its questions and no answer yet. -/
def sampleCandidate : Candidate :=
  { id := "c1", name := "Ann", email := "ann@example.org", phone := "1", resumeText := "cv.pdf",
    createdAt := "2025-01-01T00:00:00.000Z", currentIndex := 0, answers := [],
    finalScore := none, summary := none, timer := none, paused := false,
    questionsLength := 6, questions := sampleQuestions }

/-- A candidate stored right after its profile was taken: no questions yet. -/
def newCandidate : Candidate :=
  { sampleCandidate with id := "c3", questionsLength := 0, questions := [] }

/-- The first candidate as stored after two answers. -/
def halfwayCandidate : Candidate :=
  { sampleCandidate with
    currentIndex := 2
    answers :=
      [ { questionId := "q1", questionText := "t1", difficulty := .easy, responseText := "a1",
          timeTakenSeconds := 3, autoSubmitted := false, score := some 7, feedback := some "ok" },
        { questionId := "q2", questionText := "t2", difficulty := .easy, responseText := "a2",
          timeTakenSeconds := 9, autoSubmitted := false, score := none, feedback := none } ] }

/-- A second stored candidate. -/
def otherCandidate : Candidate :=
  { sampleCandidate with id := "c2", name := "Bob", email := "bob@example.org" }

/-- The first candidate as stored when its first (easy, 20 s) question was left
with 5 seconds remaining. -/
def interruptedCandidate : Candidate :=
  { sampleCandidate with
    timer := some { questionIndex := some 0, remaining := some 5, lastUpdated := 100 } }

/-- A grading request that fails. -/
def gradeDown : Except String Grade := .error "Failed to fetch"

/-- A summary request that fails. -/
def summaryDown : Except String FinalData := .error "Failed to fetch"

/-- A summary request that succeeds with 82 percent. -/
def summaryOk : Except String FinalData :=
  .ok { finalScorePercent := some 82, summary := some "Solid." }

/-- Opening the listed candidate `c1` (its questions are stored, so no
generation request is made). -/
def openFirst : Event := .openCand "c1" true (.error "not requested")

/-- Typing a text and pressing Submit, with grading and summary down. -/
def answerOnce (text : String) : List Event :=
  [.typeAnswer text, .submit false gradeDown summaryDown]

/-- Open, start the countdown (Pause then Resume), type "abc" after five ticks
and let the countdown of the first question run out. -/
def expiryRun : List Event :=
  [openFirst, .pause 1, .resume 2] ++ List.replicate 5 (.tick 3 gradeDown summaryDown) ++
    [.typeAnswer "abc"] ++ List.replicate 15 (.tick 4 gradeDown summaryDown)

/-- The state of `expiryRun` before its last tick (one second left), but with an
interval that holds the closure of the latest render instead of the memoised
one: the most favourable reading of the closure for the time computation. -/
def lastSecondFresh : State :=
  let s := run (mount [sampleCandidate]) expiryRun.dropLast
  { s with timerRef := some s.toEnv }

/-- Open, start the countdown, let five seconds pass and pause. -/
def pauseRun : List Event :=
  [openFirst, .pause 1, .resume 2] ++ List.replicate 5 (.tick 3 gradeDown summaryDown) ++
    [.pause 4]

/-- After `pauseRun`, resume. -/
def pauseResumeRun : List Event := pauseRun ++ [.resume 5]

/-- Open and answer the six questions, the summary request failing after the
sixth. -/
def sixAnswersRun : List Event :=
  [openFirst] ++ answerOnce "a1" ++ answerOnce "a2" ++ answerOnce "a3" ++ answerOnce "a4" ++
    answerOnce "a5" ++ answerOnce "a6"

/-- After `sixAnswersRun`, type and submit once more, the summary request failing
again. -/
def seventhAnswerRun : List Event := sixAnswersRun ++ answerOnce "a7"

/-- After `sixAnswersRun`, type and submit once more, the summary request now
succeeding. -/
def seventhAnswerScoredRun : List Event :=
  sixAnswersRun ++ [.typeAnswer "a7", .submit false gradeDown summaryOk]

/-- The state after opening `c1` from the mounted page. -/
def sampleOpen : State := step (mount [sampleCandidate]) openFirst

/-- Start the countdown of `c1`, let one second pass, then open `c2`. -/
def switchRun : List Event :=
  [openFirst, .pause 1, .resume 2, .tick 3 gradeDown summaryDown,
    .openCand "c2" true (.error "not requested")]

/-- A summary request that succeeds with 0 percent. -/
def summaryZero : Except String FinalData :=
  .ok { finalScorePercent := some 0, summary := some "No answer was correct." }

/-- Start the countdown of `c2`, open `c1` while it runs and let it run out (it
auto-submits into `c2` and moves the session index to 1); then answer the
questions 2 to 6 of `c1`, the summary request answering 0 percent. -/
def zeroRun : List Event :=
  [.openCand "c2" true (.error "not requested"), .pause 1, .resume 2,
    .openCand "c1" true (.error "not requested")] ++
    List.replicate 20 (.tick 3 gradeDown summaryDown) ++
    answerOnce "a2" ++ answerOnce "a3" ++ answerOnce "a4" ++ answerOnce "a5" ++
    [.typeAnswer "a6", .submit false gradeDown summaryZero]

/-- A stored record with two of six answers and a final score of 0. -/
def zeroScoredCandidate : Candidate :=
  { halfwayCandidate with finalScore := some 0, summary := some "No answer was correct." }

/-- A grading response. -/
def sampleGrade : Grade := { score := some 8, feedback := some "Good." }

/-- A hexadecimal digit. -/
def hexDigit (n : Nat) : Char :=
  if n < 10 then Char.ofNat (48 + n) else Char.ofNat (87 + n)

/-- The escape of one character inside a JSON string. -/
def jsonEscape (c : Char) : List Char :=
  if c.toNat = 34 then [Char.ofNat 92, Char.ofNat 34]
  else if c.toNat = 92 then [Char.ofNat 92, Char.ofNat 92]
  else if c.toNat < 32 then
    [Char.ofNat 92, Char.ofNat 117, Char.ofNat 48, Char.ofNat 48, hexDigit (c.toNat / 16),
      hexDigit (c.toNat % 16)]
  else [c]

/-- A JSON string literal. -/
def jsonString (s : String) : String :=
  String.mk ([Char.ofNat 34] ++ s.data.flatMap jsonEscape ++ [Char.ofNat 34])

/-- The text of null. -/
def jsonNull : String := "null"

/-- A value that may be null. -/
def jsonOption {α : Type} (f : α → String) : Option α → String
  | none => jsonNull
  | some a => f a

/-- An integer in decimal. -/
def jsonInt (n : Int) : String := toString n

/-- A natural number in decimal. -/
def jsonNat (n : Nat) : String := toString n

/-- A boolean. -/
def jsonBool (b : Bool) : String := if b then "true" else "false"

/-- An array of texts. -/
def jsonArray (items : List String) : String := "[" ++ ",".intercalate items ++ "]"

/-- An object with the given keys and texts, in order. -/
def jsonObject (fields : List (String × String)) : String :=
  "\x7b" ++ ",".intercalate (fields.map fun kv => jsonString kv.1 ++ ":" ++ kv.2) ++ "\x7d"

/-- A difficulty as its key. -/
def jsonDifficulty : Difficulty → String
  | .easy => jsonString "easy"
  | .medium => jsonString "medium"
  | .hard => jsonString "hard"

/-- The text of a question. -/
def jsonQuestion (q : Question) : String :=
  jsonObject [("id", jsonString q.id), ("text", jsonString q.text),
    ("difficulty", jsonDifficulty q.difficulty)]

/-- The text of an answer. -/
def jsonAnswer (a : Answer) : String :=
  jsonObject [("questionId", jsonString a.questionId), ("questionText", jsonString a.questionText),
    ("difficulty", jsonDifficulty a.difficulty), ("responseText", jsonString a.responseText),
    ("timeTakenSeconds", jsonInt a.timeTakenSeconds), ("autoSubmitted", jsonBool a.autoSubmitted),
    ("score", jsonOption jsonInt a.score), ("feedback", jsonOption jsonString a.feedback)]

/-- The text of a timer object. -/
def jsonTimer (t : TimerSnap) : String :=
  jsonObject [("questionIndex", jsonOption jsonNat t.questionIndex),
    ("remaining", jsonOption jsonInt t.remaining), ("lastUpdated", jsonNat t.lastUpdated)]

/-- The text of a candidate record, keys in the order of `newCand`. -/
def jsonCandidate (c : Candidate) : String :=
  jsonObject [("id", jsonString c.id), ("name", jsonString c.name), ("email", jsonString c.email),
    ("phone", jsonString c.phone), ("resumeText", jsonString c.resumeText),
    ("createdAt", jsonString c.createdAt), ("currentIndex", jsonNat c.currentIndex),
    ("answers", jsonArray (c.answers.map jsonAnswer)),
    ("finalScore", jsonOption jsonInt c.finalScore), ("summary", jsonOption jsonString c.summary),
    ("timer", jsonOption jsonTimer c.timer), ("paused", jsonBool c.paused),
    ("questionsLength", jsonNat c.questionsLength),
    ("questions", jsonArray (c.questions.map jsonQuestion))]

/-- The text of a collection. -/
def jsonCandidates (cs : List Candidate) : String := jsonArray (cs.map jsonCandidate)

/-- The collections whose text `sampleJson` reads back. -/
def knownCollections : List (List Candidate) :=
  [[], [halfwayCandidate], [halfwayCandidate, otherCandidate]]

/-- A `JSON` object for the examples: `stringify` writes the JSON text of a
collection, `parse` reads back the texts of `knownCollections` and throws on
any other text. -/
def sampleJson : JsonApi :=
  { stringify := jsonCandidates
    parse := fun text => knownCollections.find? fun cs => jsonCandidates cs == text }

/-! ## Lemmas on the handlers -/

theorem findActive_isSome (cs : List Candidate) (a : String) (h : ∃ c ∈ cs, c.id = a) :
    ∃ c, findActive cs (some a) = some c := by
  obtain ⟨c, hc, hid⟩ := h
  cases hf : findActive cs (some a) with
  | some c0 => exact ⟨c0, rfl⟩
  | none =>
    unfold findActive at hf
    rw [List.find?_eq_none] at hf
    have := hf c hc
    simp [hid] at this

theorem falsy_some (a : String) (h : a ≠ "") : falsy (some a) = false := by
  simp [falsy, h]

/-- When the guards of `handleSubmit` pass, its synchronous part is one update of
the records with the closure's id, plus `clearInterval`, `setAnswer('')` and
`setSubmitting(true)`. -/
theorem handleSubmitSync_eq (s : State) (e : Env) (auto : Bool) (a : String) (q : Question)
    (hact : e.active = some a) (hne : a ≠ "") (hcand : ∃ c ∈ e.candidates, c.id = a)
    (hq : e.questions[e.currentIndex]? = some q) :
    handleSubmitSync e auto s =
      ({ s with candidates :=
                  updateCandidate a (.fn (appendAnswer (newAnswer e auto q))) s.candidates
                timerRef := none, answer := "", submitting := true }, true) := by
  obtain ⟨c0, hc0⟩ := findActive_isSome e.candidates a hcand
  simp [handleSubmitSync, hact, falsy_some a hne, hc0, hq, State.update]

/-- The answer `handleSubmit` builds takes its time from the `remaining` of the
closure: it equals the budget only if that value is 0. -/
theorem newAnswer_timeTaken (e : Env) (auto : Bool) (q : Question) :
    (newAnswer e auto q).timeTakenSeconds = difficultySeconds q.difficulty ↔ e.remaining = 0 := by
  simp only [newAnswer]
  omega

/-- The tick on which the countdown runs out, for an interval with closure `e`
(grading and summary down): the records of the closure's candidate get the
answer built from the closure, whatever the current `remaining` and `answer`
are. -/
theorem tick_expiry (s : State) (e : Env) (now : Nat) (m1 m2 : String) (a : String)
    (q : Question) (ht : s.timerRef = some e) (hz : s.remaining - 1 ≤ 0)
    (hact : e.active = some a) (hne : a ≠ "") (hcand : ∃ c ∈ e.candidates, c.id = a)
    (hq : e.questions[e.currentIndex]? = some q) :
    (tick now (.error m1) (.error m2) s).candidates =
        s.candidates.map (fun c =>
          if c.id = a then
            { c with answers := c.answers ++ [newAnswer e true q]
                     currentIndex := c.currentIndex + 1, timer := none }
          else c) ∧
      (tick now (.error m1) (.error m2) s).timerRef = none := by
  have hs := fun s0 => handleSubmitSync_eq s0 e true a q hact hne hcand hq
  simp only [tick, ht, hz, if_true, hs, State.update, hact]
  constructor
  · by_cases hn : e.currentIndex + 1 < e.questions.length
    · simp only [handleSubmitAsync, hn, dite_true, State.notify, updateCandidate,
        List.map_map]
      apply List.map_congr_left
      intro c _
      by_cases hc : c.id = a <;> simp [hc, Updater.apply, appendAnswer]
    · simp only [handleSubmitAsync, hn, dite_false, State.notify, updateCandidate,
        List.map_map]
      apply List.map_congr_left
      intro c _
      by_cases hc : c.id = a <;> simp [hc, Updater.apply, appendAnswer]
  · by_cases hn : e.currentIndex + 1 < e.questions.length <;>
      simp [handleSubmitAsync, hn, State.notify]

/-- The whole of `handleSubmit` with closure `e` on a question that is not the
last one, the grading request failing: the first update, the warning, and the
move to the next index of the closure with the budget of that question. -/
theorem handleSubmit_error_eq (s : State) (e : Env) (auto : Bool) (a : String) (q : Question)
    (msg : String) (final : Except String FinalData)
    (hact : e.active = some a) (hne : a ≠ "") (hcand : ∃ c ∈ e.candidates, c.id = a)
    (hq : e.questions[e.currentIndex]? = some q)
    (hnext : e.currentIndex + 1 < e.questions.length) :
    handleSubmit e auto (.error msg) final s =
      { s with candidates :=
                 updateCandidate a (.fn (appendAnswer (newAnswer e auto q))) s.candidates
               timerRef := none, answer := "", submitting := false
               notices := s.notices ++ [{ level := .warning, text := "Error grading answer." }]
               currentIndex := e.currentIndex + 1
               remaining := difficultySeconds (e.questions[e.currentIndex + 1]).difficulty } := by
  simp [handleSubmit, handleSubmitSync_eq s e auto a q hact hne hcand hq, handleSubmitAsync,
    hnext, State.notify]

/-- Opening a candidate that has its questions sets `remaining` to the budget of
the question at the chosen index; the record's `timer` is not read. -/
theorem openCandidate_remaining (s : State) (e : Env) (id : String) (resume : Bool)
    (candidatesList : Option (List Candidate)) (resp : GenResponse) (cand : Candidate)
    (q : Question)
    (hfind : (candidatesList.getD e.candidates).find? (fun c => c.id == id) = some cand)
    (hq : cand.questions[if resume then resumeIndex cand else 0]? = some q) :
    (openCandidate e id resume candidatesList resp s).remaining =
      difficultySeconds q.difficulty := by
  have hne : cand.questions.length ≠ 0 := by
    intro h0
    rw [List.length_eq_zero] at h0
    simp [h0] at hq
  simp [openCandidate, hfind, hne, openWith, hq]

/-- Opening a candidate never touches the installed interval. -/
theorem openCandidate_timerRef (s : State) (e : Env) (id : String) (resume : Bool)
    (candidatesList : Option (List Candidate)) (resp : GenResponse) :
    (openCandidate e id resume candidatesList resp s).timerRef = s.timerRef := by
  simp only [openCandidate]
  cases (candidatesList.getD e.candidates).find? (fun c => c.id == id) with
  | none => rfl
  | some cand =>
    by_cases hq : cand.questions.length ≠ 0
    · simp [hq, openWith]
    · simp only [hq, if_false]
      rcases resp with msg | data
      · rfl
      · cases data with
        | none => rfl
        | some qs => by_cases h6 : qs.length ≠ 6 <;> simp [h6, openFailed, State.notify, openWith, State.update]

/-- The handler `pauseActive` removes the interval, leaves `remaining` as it is
and stores it, with `paused = true`, in the records of the active id. -/
theorem pauseActive_persists (s : State) (now : Nat) (a : String)
    (hact : s.active = some a) (hne : a ≠ "") :
    (pauseActive s.toEnv now s).timerRef = none ∧
      (pauseActive s.toEnv now s).remaining = s.remaining ∧
      ∀ c ∈ (pauseActive s.toEnv now s).candidates, c.id = a →
        c.paused = true ∧ (c.timer.bind (·.remaining)) = some s.remaining := by
  simp only [pauseActive, hact, falsy_some a hne, State.notify, State.update, updateCandidate]
  refine ⟨by simp, by simp, ?_⟩
  intro c hc hid
  simp only [Bool.false_eq_true, if_false, List.mem_map] at hc
  obtain ⟨c0, _, rfl⟩ := hc
  by_cases h0 : c0.id = a
  · simp [h0, Updater.apply]
  · simp [h0] at hid

/-- The handler `resumeActive` restarts the countdown from the `timer.remaining`
that the closure `st` of the memoised `startTimer` holds for the active record,
or from the budget when that closure holds none. -/
theorem resumeActive_remaining (s : State) (st : Env) (now : Nat) (a : String) (q : Question)
    (hact : s.active = some a) (hne : a ≠ "") (hst : st.active = some a)
    (hq : st.questions[st.currentIndex]? = some q) :
    (resumeActive s.toEnv st now s).remaining =
      (((findActive st.candidates st.active).bind (·.timer)).bind (·.remaining)).getD
        (difficultySeconds q.difficulty) := by
  simp [resumeActive, hact, falsy_some a hne, startTimer, hq, hst, State.notify]

/-! ## Lemmas on the scan, the sort and the grading update -/

/-- The scan of the code and the scan of the specification agree on every
collection in which no record with missing answers has a final score of 0. -/
theorem unfinished_eq_spec (cs : List Candidate)
    (h : ∀ c ∈ cs, c.answers.length < c.questionsLength → c.finalScore ≠ some 0) :
    unfinished cs = unfinishedSpec cs := by
  induction cs with
  | nil => rfl
  | cons c cs ih =>
    have hc := h c (List.mem_cons_self c cs)
    have ih2 := ih fun d hd => h d (List.mem_cons_of_mem c hd)
    simp only [unfinished, unfinishedSpec, List.find?_cons] at ih2 ⊢
    by_cases hlt : c.answers.length < c.questionsLength
    · cases hf : c.finalScore with
      | none => simp [hlt, falsyScore]
      | some n =>
        have hn : (n == 0) = false := by
          rw [beq_eq_false_iff_ne]
          exact fun h0 => hc hlt (by rw [hf, h0])
        rw [hf] at *
        simp only [hlt, decide_True, Bool.true_and, falsyScore, hn, Option.isNone_some]
        exact ih2
    · simp [hlt, ih2]

/-- The mount effect leaves the state as it is. -/
theorem resumeEffect_state (s : State) : (resumeEffect s).1 = s := by
  unfold resumeEffect
  split <;> rfl

/-- Inserting a record into a list leaves, for every score, the records with
that score in their order, the inserted one first. -/
theorem filter_orderedInsert_score (T : TextApi) (k : Int) (a : Candidate) (l : List Candidate) :
    ((l.orderedInsert (fun a b => compareBy T .finalScore a b ≤ 0) a).filter
        fun c => decide (scoreOrZero c = k)) =
      (a :: l).filter fun c => decide (scoreOrZero c = k) := by
  induction l with
  | nil => simp
  | cons b l ih =>
    by_cases hab : compareBy T .finalScore a b ≤ 0
    · simp [List.orderedInsert, hab]
    · have hlt : scoreOrZero a < scoreOrZero b := by
        simp only [compareBy] at hab
        omega
      simp only [List.orderedInsert, hab, if_false]
      rw [List.filter_cons, ih]
      by_cases hak : scoreOrZero a = k
      · have hbk : scoreOrZero b ≠ k := by omega
        simp [List.filter_cons, hak, hbk]
      · simp [List.filter_cons, hak]

/-- Stability of `jsSort` for the score comparator. -/
theorem filter_jsSort_score (T : TextApi) (k : Int) (l : List Candidate) :
    ((jsSort (compareBy T .finalScore) l).filter fun c => decide (scoreOrZero c = k)) =
      l.filter fun c => decide (scoreOrZero c = k) := by
  induction l with
  | nil => simp [jsSort]
  | cons a l ih =>
    have h := filter_orderedInsert_score T k a (jsSort (compareBy T .finalScore) l)
    simp only [jsSort, List.insertionSort] at h ih ⊢
    rw [h, List.filter_cons, List.filter_cons, ih]

/-- The result of `jsSort` for the score comparator is in descending order of
`finalScore || 0`. -/
theorem sorted_jsSort_score (T : TextApi) (l : List Candidate) :
    (jsSort (compareBy T .finalScore) l).Pairwise fun a b => scoreOrZero b ≤ scoreOrZero a := by
  have total : IsTotal Candidate (fun a b => compareBy T .finalScore a b ≤ 0) :=
    ⟨fun a b => by simp only [compareBy]; omega⟩
  have trans : IsTrans Candidate (fun a b => compareBy T .finalScore a b ≤ 0) :=
    ⟨fun a b c => by simp only [compareBy]; omega⟩
  have h := List.sorted_insertionSort (fun a b => compareBy T .finalScore a b ≤ 0) l
  refine List.Pairwise.imp ?_ h
  intro a b hab
  simp only [compareBy] at hab
  omega

/-- The grading assignment changes the last answer only. -/
theorem setLastGrade_append (g : Grade) (l : List Answer) (x : Answer) :
    setLastGrade g (l ++ [x]) = l ++ [{ x with score := g.score, feedback := g.feedback }] := by
  induction l with
  | nil => rfl
  | cons a l ih =>
    cases l with
    | nil => rfl
    | cons b rest =>
      simp only [List.cons_append] at ih ⊢
      rw [setLastGrade, ih]

/-- The grading assignment keeps the number of answers. -/
theorem setLastGrade_length (g : Grade) (l : List Answer) :
    (setLastGrade g l).length = l.length := by
  induction l using List.reverseRecOn with
  | nil => rfl
  | append_singleton l x _ => simp [setLastGrade_append]

/-- The grading assignment keeps every answer but the last. -/
theorem setLastGrade_getElem? (g : Grade) (l : List Answer) (i : Nat) (h : i + 1 < l.length) :
    (setLastGrade g l)[i]? = l[i]? := by
  induction l using List.reverseRecOn with
  | nil => simp at h
  | append_singleton l x _ =>
    simp only [List.length_append, List.length_singleton] at h
    rw [setLastGrade_append, List.getElem?_append_left (by omega),
      List.getElem?_append_left (by omega)]

/-- The records after `handleSubmit` with closure `e` when grading succeeds and no
summary update follows: the first update, then the grading update. -/
theorem handleSubmit_ok_candidates (s : State) (e : Env) (auto : Bool) (a : String)
    (q : Question) (g : Grade) (final : Except String FinalData)
    (hact : e.active = some a) (hne : a ≠ "") (hcand : ∃ c ∈ e.candidates, c.id = a)
    (hq : e.questions[e.currentIndex]? = some q)
    (hfin : e.currentIndex + 1 < e.questions.length ∨ ∃ m, final = .error m) :
    (handleSubmit e auto (.ok g) final s).candidates =
      updateCandidate a (.fn fun c => { c with answers := setLastGrade g c.answers })
        (updateCandidate a (.fn (appendAnswer (newAnswer e auto q))) s.candidates) := by
  have hs := handleSubmitSync_eq s e auto a q hact hne hcand hq
  by_cases hnext : e.currentIndex + 1 < e.questions.length
  · simp [handleSubmit, hs, handleSubmitAsync, hnext, State.update, hact]
  · rcases hfin with h | ⟨m, rfl⟩
    · exact absurd h hnext
    · simp [handleSubmit, hs, handleSubmitAsync, hnext, State.update, hact, State.notify]

/-- The records after `handleSubmit` with closure `e` on the last question when
grading and summary succeed: the first update, the grading update, then the
summary update. -/
theorem handleSubmit_ok_final_candidates (s : State) (e : Env) (auto : Bool) (a : String)
    (q : Question) (g : Grade) (d : FinalData)
    (hact : e.active = some a) (hne : a ≠ "") (hcand : ∃ c ∈ e.candidates, c.id = a)
    (hq : e.questions[e.currentIndex]? = some q)
    (hlast : ¬ e.currentIndex + 1 < e.questions.length) :
    (handleSubmit e auto (.ok g) (.ok d) s).candidates =
      updateCandidate a
        (.obj { CandidatePatch.empty with
                finalScore := some d.finalScorePercent
                summary := some d.summary
                currentIndex := some e.questions.length })
        (updateCandidate a (.fn fun c => { c with answers := setLastGrade g c.answers })
          (updateCandidate a (.fn (appendAnswer (newAnswer e auto q))) s.candidates)) := by
  have hs := handleSubmitSync_eq s e auto a q hact hne hcand hq
  simp [handleSubmit, hs, handleSubmitAsync, hlast, State.update, hact, State.notify]

/-! ## The claims -/

/-- C1: in a state where a candidate `a` is active and the current question
`q = questions[currentIndex]` exists, `handleSubmit(auto)` of the current render
replaces every record with id `a` by the record with one answer appended, the
index advanced by one and the timer null; that answer has the id, text and
difficulty of `q`, `autoSubmitted = auto`, null score and feedback, and
`timeTakenSeconds` equal to the budget of `q` (easy 20, medium 60, hard 120)
minus the current `remaining`.  All other records are unchanged. -/
theorem handleSubmit_appends_answer (s : State) (auto : Bool) (a : String) (q : Question)
    (hact : s.active = some a) (hne : a ≠ "") (hcand : ∃ c ∈ s.candidates, c.id = a)
    (hq : s.questions[s.currentIndex]? = some q) :
    ∃ ans : Answer,
      ans.questionId = q.id ∧ ans.questionText = q.text ∧ ans.difficulty = q.difficulty ∧
      ans.autoSubmitted = auto ∧ ans.score = none ∧ ans.feedback = none ∧
      ans.timeTakenSeconds = difficultySeconds q.difficulty - s.remaining ∧
      (handleSubmitSync s.toEnv auto s).1.candidates =
        s.candidates.map (fun c =>
          if c.id = a then
            { c with answers := c.answers ++ [ans], currentIndex := c.currentIndex + 1,
                     timer := none }
          else c) ∧
      difficultySeconds .easy = 20 ∧ difficultySeconds .medium = 60 ∧
      difficultySeconds .hard = 120 := by
  refine ⟨newAnswer s.toEnv auto q, rfl, rfl, rfl, rfl, rfl, rfl, rfl, ?_, rfl, rfl, rfl⟩
  rw [handleSubmitSync_eq s s.toEnv auto a q hact hne hcand hq]
  rfl

/-- C1 at the first question of the opened sample candidate, submitted by hand. -/
theorem handleSubmit_appends_answer_witness :
    ∃ ans : Answer,
      ans.questionId = firstQuestion.id ∧ ans.questionText = firstQuestion.text ∧
      ans.difficulty = firstQuestion.difficulty ∧
      ans.autoSubmitted = false ∧ ans.score = none ∧ ans.feedback = none ∧
      ans.timeTakenSeconds = difficultySeconds firstQuestion.difficulty - sampleOpen.remaining ∧
      (handleSubmitSync sampleOpen.toEnv false sampleOpen).1.candidates =
        sampleOpen.candidates.map (fun c =>
          if c.id = "c1" then
            { c with answers := c.answers ++ [ans], currentIndex := c.currentIndex + 1,
                     timer := none }
          else c) ∧
      difficultySeconds .easy = 20 ∧ difficultySeconds .medium = 60 ∧
      difficultySeconds .hard = 120 :=
  handleSubmit_appends_answer sampleOpen false "c1" firstQuestion (by decide) (by decide)
    ⟨sampleCandidate, by decide, by decide⟩ (by decide)

/-- C2 (the code differs): on the run `expiryRun` the countdown of the easy
first question (budget 20) runs out after "abc" was typed; the answer the tick
produces is auto-submitted and the interval is removed, but its
`timeTakenSeconds` is 0 and its `responseText` is the sentinel, because the
interval calls the `handleSubmit` of the render in which `startTimer` was
memoised, whose `remaining` is 20 and whose `answer` is empty.  Were the
interval to hold the closure of the latest render (`lastSecondFresh`), the
time would be 19: `remaining` is still 1 when `handleSubmit(true)` runs. -/
theorem expiry_answer_uses_stale_closure :
    (runUI (mount [sampleCandidate]) expiryRun).map (fun s =>
        (s.timerRef.isSome,
          s.candidates.map (fun c => c.answers.map (fun a =>
            (a.autoSubmitted, a.timeTakenSeconds, a.responseText))))) =
      some (false, [[(true, 0, "[AUTO SUBMITTED]")]]) ∧
    (lastSecondFresh.remaining, lastSecondFresh.answer) = (1, "abc") ∧
    (tick 4 gradeDown summaryDown lastSecondFresh).candidates.map (fun c =>
        c.answers.map (fun a => (a.autoSubmitted, a.timeTakenSeconds, a.responseText))) =
      [[(true, 19, "abc")]] ∧
    difficultySeconds firstQuestion.difficulty = 20 := by
  refine ⟨?_, ?_, ?_, ?_⟩ <;> decide

/-- C3: when the candidate found has no questions and the generation response
carries no question list or one whose length is not 6, `openCandidate` reports
the error and leaves `candidates`, `questions`, `currentIndex`, `remaining`,
`active` and the interval as they were. -/
theorem openCandidate_rejects_wrong_count (s : State) (e : Env) (id : String) (resume : Bool)
    (candidatesList : Option (List Candidate)) (cand : Candidate)
    (data : Option (List Question))
    (hfind : (candidatesList.getD e.candidates).find? (fun c => c.id == id) = some cand)
    (hempty : cand.questions = [])
    (hbad : ∀ qs, data = some qs → qs.length ≠ 6) :
    (openCandidate e id resume candidatesList (.ok data) s).notices =
        s.notices ++ [{ level := .error, text := "Backend must return exactly 6 questions." }] ∧
      (openCandidate e id resume candidatesList (.ok data) s).candidates = s.candidates ∧
      (openCandidate e id resume candidatesList (.ok data) s).questions = s.questions ∧
      (openCandidate e id resume candidatesList (.ok data) s).currentIndex = s.currentIndex ∧
      (openCandidate e id resume candidatesList (.ok data) s).remaining = s.remaining ∧
      (openCandidate e id resume candidatesList (.ok data) s).active = s.active ∧
      (openCandidate e id resume candidatesList (.ok data) s).timerRef = s.timerRef := by
  have hr : openCandidate e id resume candidatesList (.ok data) s =
      openFailed s "Backend must return exactly 6 questions." := by
    unfold openCandidate
    simp only [hfind, hempty, List.length_nil, ne_eq, not_true_eq_false, if_false]
    cases data with
    | none => rfl
    | some qs => simp [hbad qs rfl]
  rw [hr]
  simp [openFailed, State.notify]

/-- C3 at a new candidate and a response with five questions. -/
theorem openCandidate_rejects_wrong_count_witness :
    (openCandidate (mount [newCandidate]).toEnv "c3" false none
        (.ok (some (sampleQuestions.take 5))) (mount [newCandidate])).notices =
        (mount [newCandidate]).notices ++
          [{ level := .error, text := "Backend must return exactly 6 questions." }] ∧
      (openCandidate (mount [newCandidate]).toEnv "c3" false none
        (.ok (some (sampleQuestions.take 5))) (mount [newCandidate])).candidates =
        (mount [newCandidate]).candidates ∧
      (openCandidate (mount [newCandidate]).toEnv "c3" false none
        (.ok (some (sampleQuestions.take 5))) (mount [newCandidate])).questions =
        (mount [newCandidate]).questions ∧
      (openCandidate (mount [newCandidate]).toEnv "c3" false none
        (.ok (some (sampleQuestions.take 5))) (mount [newCandidate])).currentIndex =
        (mount [newCandidate]).currentIndex ∧
      (openCandidate (mount [newCandidate]).toEnv "c3" false none
        (.ok (some (sampleQuestions.take 5))) (mount [newCandidate])).remaining =
        (mount [newCandidate]).remaining ∧
      (openCandidate (mount [newCandidate]).toEnv "c3" false none
        (.ok (some (sampleQuestions.take 5))) (mount [newCandidate])).active =
        (mount [newCandidate]).active ∧
      (openCandidate (mount [newCandidate]).toEnv "c3" false none
        (.ok (some (sampleQuestions.take 5))) (mount [newCandidate])).timerRef =
        (mount [newCandidate]).timerRef :=
  openCandidate_rejects_wrong_count (mount [newCandidate]) (mount [newCandidate]).toEnv "c3"
    false none newCandidate (some (sampleQuestions.take 5)) (by decide) (by decide)
    (by intro qs h; cases h; decide)

/-- C4 (the code differs): the easy first question (budget 20) of
`interruptedCandidate` is stored with `timer.remaining = 5`; after the page is
mounted and the candidate reopened with `resume = true`, `remaining` is 20 and
no interval is installed: `openCandidate` takes the budget and does not read
the stored timer. -/
theorem reopen_ignores_stored_remaining :
    (runUI (mount [interruptedCandidate]) [openFirst]).map (fun s =>
        (s.remaining, s.currentIndex, s.timerRef.isSome,
          s.candidates.map (fun c => c.timer.bind (·.remaining)))) =
      some (20, 0, false, [some 5]) := by
  decide

/-- C5: for a candidate found with `currentIndex = answers.length <
questions.length`, `openCandidate` sets the session index to `answers.length`
when `resume` is true and to 0 when it is false. -/
theorem openCandidate_index (s : State) (e : Env) (id : String)
    (candidatesList : Option (List Candidate)) (resp : GenResponse) (cand : Candidate)
    (hfind : (candidatesList.getD e.candidates).find? (fun c => c.id == id) = some cand)
    (hidx : cand.currentIndex = cand.answers.length)
    (hlt : cand.answers.length < cand.questions.length) :
    (openCandidate e id true candidatesList resp s).currentIndex = cand.answers.length ∧
      (openCandidate e id false candidatesList resp s).currentIndex = 0 := by
  have hne : cand.questions.length ≠ 0 := by omega
  constructor
  · simp only [openCandidate, hfind, hne, ne_eq, not_false_eq_true, if_true, openWith,
      resumeIndex, hidx]
    split <;> omega
  · simp only [openCandidate, hfind, hne, ne_eq, not_false_eq_true, if_true, openWith]
    simp

/-- C5 at a candidate stored after two of six answers. -/
theorem openCandidate_index_witness :
    (openCandidate (mount [halfwayCandidate]).toEnv "c1" true none (.error "not requested")
        (mount [halfwayCandidate])).currentIndex = halfwayCandidate.answers.length ∧
      (openCandidate (mount [halfwayCandidate]).toEnv "c1" false none (.error "not requested")
        (mount [halfwayCandidate])).currentIndex = 0 :=
  openCandidate_index (mount [halfwayCandidate]) (mount [halfwayCandidate]).toEnv "c1" none
    (.error "not requested") halfwayCandidate (by decide) (by decide) (by decide)

/-- C6 (the code differs): on `pauseRun` the easy first question (budget 20) is
paused with 15 seconds left: the interval is removed, `paused` is true, and
`remaining = 15` is kept and stored.  The following Resume sets `paused` to
false and installs an interval, but restarts the countdown from 20: the
memoised `startTimer` reads the candidates of the render in which the question
became current, where the record had no timer, so it falls back to the
budget; the stored value is still 15. -/
theorem resume_restarts_from_budget :
    (runUI (mount [sampleCandidate]) pauseRun).map (fun s =>
        (s.remaining, s.timerRef.isSome,
          s.candidates.map (fun c => (c.paused, c.timer.bind (·.remaining))))) =
      some (15, false, [(true, some 15)]) ∧
    (runUI (mount [sampleCandidate]) pauseResumeRun).map (fun s =>
        (s.remaining, s.timerRef.isSome,
          s.candidates.map (fun c => (c.paused, c.timer.bind (·.remaining))))) =
      some (20, true, [(false, some 15)]) := by
  decide

/-- C7 (the code differs): on `seventhAnswerRun` the six questions are answered,
the summary request fails, the page still shows the sixth question with Submit
enabled, and one more submission is accepted: the record then has 7 answers
for 6 questions. -/
theorem seventh_answer_accepted :
    (runUI (mount [sampleCandidate]) sixAnswersRun).map (fun s =>
        (cardShown s, s.currentIndex,
          s.candidates.map (fun c => (c.answers.length, c.questions.length)))) =
      some (true, 5, [(6, 6)]) ∧
    (runUI (mount [sampleCandidate]) seventhAnswerRun).map (fun s =>
        s.candidates.map (fun c => (c.answers.length, c.questions.length))) =
      some [(7, 6)] := by
  decide

/-- C8 (the code differs): on `seventhAnswerScoredRun` the summary request fails
after the sixth answer (all six answers kept, `finalScore` and `summary` null),
a seventh answer is then accepted and its summary request succeeds with 82:
the record ends with `finalScore = 82` while it has 7 answers for 6
questions. -/
theorem finalScore_with_seven_answers :
    (runUI (mount [sampleCandidate]) sixAnswersRun).map (fun s =>
        s.candidates.map (fun c =>
          (c.finalScore, c.summary, c.answers.length, c.questions.length))) =
      some [(none, none, 6, 6)] ∧
    (runUI (mount [sampleCandidate]) seventhAnswerScoredRun).map (fun s =>
        s.candidates.map (fun c =>
          (c.finalScore, c.summary, c.answers.length, c.questions.length))) =
      some [(some 82, some "Solid.", 7, 6)] := by
  constructor <;> rfl

/-- C9: when a candidate `a` is active, the current question `q` exists and is
not the last one, and the grading request fails, `handleSubmit(auto)` of the
current render leaves the records exactly as its first update made them (the
appended answer has null score and feedback), sets the session index to the
next index and `remaining` to the budget of the next question. -/
theorem handleSubmit_grading_failure (s : State) (auto : Bool) (a : String) (q : Question)
    (msg : String) (final : Except String FinalData)
    (hact : s.active = some a) (hne : a ≠ "") (hcand : ∃ c ∈ s.candidates, c.id = a)
    (hq : s.questions[s.currentIndex]? = some q)
    (hnext : s.currentIndex + 1 < s.questions.length) :
    ∃ ans : Answer, ∃ nextQ : Question,
      ans.questionId = q.id ∧ ans.score = none ∧ ans.feedback = none ∧
      (handleSubmit s.toEnv auto (.error msg) final s).candidates =
        s.candidates.map (fun c =>
          if c.id = a then
            { c with answers := c.answers ++ [ans], currentIndex := c.currentIndex + 1,
                     timer := none }
          else c) ∧
      (handleSubmit s.toEnv auto (.error msg) final s).candidates =
        (handleSubmitSync s.toEnv auto s).1.candidates ∧
      s.questions[s.currentIndex + 1]? = some nextQ ∧
      (handleSubmit s.toEnv auto (.error msg) final s).currentIndex = s.currentIndex + 1 ∧
      (handleSubmit s.toEnv auto (.error msg) final s).remaining =
        difficultySeconds nextQ.difficulty := by
  have hs := handleSubmitSync_eq s s.toEnv auto a q hact hne hcand hq
  have hr := handleSubmit_error_eq s s.toEnv auto a q msg final hact hne hcand hq hnext
  refine ⟨newAnswer s.toEnv auto q, s.questions[s.currentIndex + 1], rfl, rfl, rfl,
    ?_, ?_, ?_, ?_, ?_⟩
  · rw [hr]; rfl
  · rw [hr, hs]
  · simp [hnext]
  · rw [hr]
  · rw [hr]

/-- C9 at the first question of the opened sample candidate. -/
theorem handleSubmit_grading_failure_witness :
    ∃ ans : Answer, ∃ nextQ : Question,
      ans.questionId = firstQuestion.id ∧ ans.score = none ∧ ans.feedback = none ∧
      (handleSubmit sampleOpen.toEnv false (.error "Failed to fetch") summaryDown
          sampleOpen).candidates =
        sampleOpen.candidates.map (fun c =>
          if c.id = "c1" then
            { c with answers := c.answers ++ [ans], currentIndex := c.currentIndex + 1,
                     timer := none }
          else c) ∧
      (handleSubmit sampleOpen.toEnv false (.error "Failed to fetch") summaryDown
          sampleOpen).candidates =
        (handleSubmitSync sampleOpen.toEnv false sampleOpen).1.candidates ∧
      sampleOpen.questions[sampleOpen.currentIndex + 1]? = some nextQ ∧
      (handleSubmit sampleOpen.toEnv false (.error "Failed to fetch") summaryDown
          sampleOpen).currentIndex = sampleOpen.currentIndex + 1 ∧
      (handleSubmit sampleOpen.toEnv false (.error "Failed to fetch") summaryDown
          sampleOpen).remaining = difficultySeconds nextQ.difficulty :=
  handleSubmit_grading_failure sampleOpen false "c1" firstQuestion "Failed to fetch" summaryDown
    (by decide) (by decide) ⟨sampleCandidate, by decide, by decide⟩ (by decide) (by decide)

/-- C10 (the code differs): on `switchRun` the countdown of `c1` is running when
`c2` is opened.  After the call `c2` is active but the installed interval is
still the one bound to `c1`; its next tick rewrites the timer of `c1` (and
counts down the `remaining` shown for `c2`), and after twenty ticks it
auto-submits an answer into `c1` and moves the session index. -/
theorem open_other_keeps_timer :
    (runUI (mount [sampleCandidate, otherCandidate]) switchRun).map (fun s =>
        (s.active, s.timerRef.map (·.active), s.remaining)) =
      some (some "c2", some (some "c1"), 20) ∧
    (runUI (mount [sampleCandidate, otherCandidate])
        (switchRun ++ [.tick 9 gradeDown summaryDown])).map (fun s =>
        (s.active, s.remaining, s.candidates.map (fun c => (c.id, c.timer)))) =
      some (some "c2", 19,
        [("c1", some { questionIndex := some 0, remaining := some 19, lastUpdated := 9 }),
         ("c2", none)]) ∧
    (runUI (mount [sampleCandidate, otherCandidate])
        (switchRun ++ List.replicate 20 (.tick 9 gradeDown summaryDown))).map (fun s =>
        (s.active, s.currentIndex,
          s.candidates.map (fun c => (c.id, c.answers.map (·.autoSubmitted))))) =
      some (some "c2", 1, [("c1", [true]), ("c2", [])]) := by
  refine ⟨?_, ?_, ?_⟩ <;> rfl

/-- C11 (the code differs): the scan tests `!c.finalScore`, which also holds for
a final score of 0.  For the stored collection `[zeroScoredCandidate,
otherCandidate]` (first record: two of six answers, `finalScore = 0`) the mount
effect offers the first record, while the first record with
`answers.length < questionsLength` and `finalScore == null` is the second.
Such a collection arises on the page: after `zeroRun` the record `c1` has five
of six answers and `finalScore = 0`, and on the next mount the effect offers
`c1` instead of `c2`.  The effect leaves the state unchanged. -/
theorem resume_scan_offers_zero_scored :
    (resumeEffect (mount [zeroScoredCandidate, otherCandidate])).2 = some zeroScoredCandidate ∧
    unfinishedSpec [zeroScoredCandidate, otherCandidate] = some otherCandidate ∧
    (resumeEffect (mount [zeroScoredCandidate, otherCandidate])).1 =
      mount [zeroScoredCandidate, otherCandidate] ∧
    (runUI (mount [sampleCandidate, otherCandidate]) zeroRun).map (fun s =>
        (s.candidates.map (fun c => (c.id, c.answers.length, c.questionsLength, c.finalScore)),
          (resumeEffect (mount s.candidates)).2.map (·.id),
          (unfinishedSpec s.candidates).map (·.id))) =
      some ([("c1", 5, 6, some 0), ("c2", 1, 6, none)], some "c1", some "c2") := by
  refine ⟨?_, ?_, ?_, ?_⟩ <;> rfl

/-- C12: for every collection `cs` and every content of the storage, if the
platform's `JSON.parse` reads the text `JSON.stringify(cs)` back as `cs` and that
text is not empty, then `loadCandidates()` after `saveCandidates(cs)` returns
`cs`: both functions use the key `candidates`, and neither the `|| '[]'`
fallback nor the `catch` is taken. -/
theorem load_after_save (J : JsonApi) (cs : List Candidate) (st : Storage)
    (hparse : J.parse (J.stringify cs) = some cs) (htext : J.stringify cs ≠ "") :
    loadCandidates J (saveCandidates J (some cs) st) = cs := by
  simp [loadCandidates, saveCandidates, Storage.setItem, htext, hparse]

/-- C12 at a collection of two records, an empty storage and `sampleJson`. -/
theorem load_after_save_witness :
    loadCandidates sampleJson
        (saveCandidates sampleJson (some [halfwayCandidate, otherCandidate]) (fun _ => none)) =
      [halfwayCandidate, otherCandidate] :=
  load_after_save sampleJson [halfwayCandidate, otherCandidate] (fun _ => none)
    (by decide!) (by decide!)

/-- C13: for every stored collection, status filter and search text, the list
the dashboard shows when sorted by score is a permutation of the filtered
input, is in descending order of `finalScore || 0`, has for every score the
records of that score in their input order, and consists of records of the
stored collection; the dashboard is a function of the loaded collection and
writes nothing. -/
theorem dashboard_sort_by_score (T : TextApi) (filter : StatusFilter) (search : String)
    (stored : List Candidate) :
    (dashboard T filter search .finalScore stored).Perm (visible T filter search stored) ∧
      (dashboard T filter search .finalScore stored).Pairwise
        (fun a b => scoreOrZero b ≤ scoreOrZero a) ∧
      (∀ k : Int,
        ((dashboard T filter search .finalScore stored).filter
            fun c => decide (scoreOrZero c = k)) =
          (visible T filter search stored).filter fun c => decide (scoreOrZero c = k)) ∧
      (∀ c ∈ dashboard T filter search .finalScore stored, c ∈ stored) := by
  refine ⟨List.perm_insertionSort _ _, sorted_jsSort_score T _,
    fun k => filter_jsSort_score T k _, ?_⟩
  intro c hc
  have hv : c ∈ visible T filter search stored :=
    (List.perm_insertionSort _ _).mem_iff.mp hc
  simp only [visible] at hv
  cases filter <;> split at hv <;> simp only [List.mem_filter] at hv <;>
    first | exact hv | exact hv.1 | exact hv.1.1

/-- C14: when a candidate `a` is active, the current question `q` exists and
the grading request succeeds with `g`, the grading update of `handleSubmit`
turns the records left by the first update into the records of `a` with the
answer just appended carrying `g.score` and `g.feedback`, and changes nothing
else: the number of answers, every answer but the last, the other fields of
the last answer and the other fields of the record stay.  These are the
records after `handleSubmit`, unless the question is the last one and the
summary request succeeds, in which case the summary update is applied on
top. -/
theorem handleSubmit_grading_success (s : State) (auto : Bool) (a : String) (q : Question)
    (g : Grade) (final : Except String FinalData)
    (hact : s.active = some a) (hne : a ≠ "") (hcand : ∃ c ∈ s.candidates, c.id = a)
    (hq : s.questions[s.currentIndex]? = some q) :
    (handleSubmitSync s.toEnv auto s).1.candidates.map (fun c =>
          if c.id = a then { c with answers := setLastGrade g c.answers } else c) =
        s.candidates.map (fun c =>
          if c.id = a then
            { c with answers := c.answers ++
                       [{ newAnswer s.toEnv auto q with score := g.score, feedback := g.feedback }]
                     currentIndex := c.currentIndex + 1, timer := none }
          else c) ∧
      ((s.currentIndex + 1 < s.questions.length ∨ ∃ m, final = .error m) →
        (handleSubmit s.toEnv auto (.ok g) final s).candidates =
          (handleSubmitSync s.toEnv auto s).1.candidates.map (fun c =>
            if c.id = a then { c with answers := setLastGrade g c.answers } else c)) ∧
      (∀ d : FinalData, ¬ s.currentIndex + 1 < s.questions.length → final = .ok d →
        (handleSubmit s.toEnv auto (.ok g) final s).candidates =
          updateCandidate a
            (.obj { CandidatePatch.empty with
                    finalScore := some d.finalScorePercent
                    summary := some d.summary
                    currentIndex := some s.questions.length })
            ((handleSubmitSync s.toEnv auto s).1.candidates.map (fun c =>
              if c.id = a then { c with answers := setLastGrade g c.answers } else c))) ∧
      (∀ l : List Answer, (setLastGrade g l).length = l.length) ∧
      (∀ (l : List Answer) (i : Nat), i + 1 < l.length → (setLastGrade g l)[i]? = l[i]?) ∧
      (∀ (l : List Answer) (x : Answer),
        setLastGrade g (l ++ [x]) =
          l ++ [{ x with score := g.score, feedback := g.feedback }]) := by
  have hs := handleSubmitSync_eq s s.toEnv auto a q hact hne hcand hq
  refine ⟨?_, ?_, ?_, setLastGrade_length g, setLastGrade_getElem? g, setLastGrade_append g⟩
  · rw [hs]
    simp only [updateCandidate, List.map_map]
    apply List.map_congr_left
    intro c _
    by_cases hc : c.id = a
    · simp [hc, Updater.apply, appendAnswer, setLastGrade_append]
    · simp [hc]
  · intro hfin
    rw [handleSubmit_ok_candidates s s.toEnv auto a q g final hact hne hcand hq hfin, hs]
    simp [updateCandidate, Updater.apply]
  · intro d hlast hd
    subst hd
    rw [handleSubmit_ok_final_candidates s s.toEnv auto a q g d hact hne hcand hq hlast, hs]
    simp [updateCandidate, Updater.apply]

/-- C14 at the first question of the opened sample candidate, graded 8. -/
theorem handleSubmit_grading_success_witness :
    (handleSubmit sampleOpen.toEnv false (.ok sampleGrade) summaryDown sampleOpen).candidates =
      (handleSubmitSync sampleOpen.toEnv false sampleOpen).1.candidates.map (fun c =>
        if c.id = "c1" then { c with answers := setLastGrade sampleGrade c.answers } else c) :=
  (handleSubmit_grading_success sampleOpen false "c1" firstQuestion sampleGrade summaryDown
    (by decide) (by decide) ⟨sampleCandidate, by decide, by decide⟩ (by decide)).2.1
    (Or.inl (by decide))

/-- C15: `updateCandidate(id, updater)` returns a collection of the same length
in which, at every position, a record whose id differs from `id` is the record
of the input and a record with that id is `updater(record)` for a function and
the record with the fields of the updater merged over it for an object; when
no record has that id the collection is returned as it was. -/
theorem updateCandidate_frame (id : String) (updater : Updater) (prev : List Candidate) :
    (updateCandidate id updater prev).length = prev.length ∧
      (∀ (i : Nat) (c : Candidate), prev[i]? = some c →
        (updateCandidate id updater prev)[i]? =
          some (if c.id = id then
                  (match updater with
                   | .fn f => f c
                   | .obj p => p.merge c)
                else c)) ∧
      ((∀ c ∈ prev, c.id ≠ id) → updateCandidate id updater prev = prev) := by
  refine ⟨by simp [updateCandidate], ?_, ?_⟩
  · intro i c hc
    simp only [updateCandidate, List.getElem?_map, hc, Option.map_some']
    cases updater <;> rfl
  · intro h
    simp only [updateCandidate]
    conv_rhs => rw [← List.map_id prev]
    apply List.map_congr_left
    intro c hc
    simp [h c hc]

/-- C15 at a collection of two records: an object updater with a `name` is
merged over the record `c2`, and with an id that no record has the collection
is unchanged. -/
theorem updateCandidate_frame_witness :
    (updateCandidate "c2" (.obj { CandidatePatch.empty with name := some "Bo" })
        [sampleCandidate, otherCandidate])[1]? =
      some (if otherCandidate.id = "c2" then
              (match Updater.obj { CandidatePatch.empty with name := some "Bo" } with
               | .fn f => f otherCandidate
               | .obj p => p.merge otherCandidate)
            else otherCandidate) ∧
    updateCandidate "c9" (.obj { CandidatePatch.empty with name := some "Bo" })
        [sampleCandidate, otherCandidate] = [sampleCandidate, otherCandidate] :=
  ⟨(updateCandidate_frame "c2" (.obj { CandidatePatch.empty with name := some "Bo" })
      [sampleCandidate, otherCandidate]).2.1 1 otherCandidate (by decide),
    (updateCandidate_frame "c9" (.obj { CandidatePatch.empty with name := some "Bo" })
      [sampleCandidate, otherCandidate]).2.2 (by decide)⟩

end Interview
